import Mathlib

/-!
Verification development for the calculator-server MCP repository.

Shallow embedding of the protocol dispatch engine (`Server` in
`pkg/mcp`), the stdio loop (`Server.Run`), the plain HTTP transport
(`HTTPTransport.handleMCP`) and the streamable HTTP transport
(`StreamableHTTPTransport`), followed by theorems about the embedded
definitions.

Conventions of the embedding:
- JSON values are modelled by the inductive `JValue`; Go
  `map[string]interface~~` literals become `JValue.jobj` field lists.
- The results of external JSON decoding (`json.Unmarshal`) are modelled
  as inductives with a `malformed` constructor carrying the decoder
  error string, since the decoder itself is Go standard-library code.
- Timestamps are integers; `time.Since(x)` at current time `now` is
  `now - x`.
- Go maps keyed by strings become association lists with map-update
  (`setKey`) and map-lookup (`lookupKey`) semantics.
-/

namespace CalcServer

/-- JSON-like dynamic values, standing in for Go `interface` values that
hold decoded or to-be-encoded JSON. -/
inductive JValue where
| jstr (s : String)
| jnum (n : Int)
| jbool (b : Bool)
| jarr (items : List JValue)
| jobj (fields : List (String × JValue))

/-- A JSON-RPC id: Go `interface` that is round-tripped, never
interpreted; it is a JSON null, number or string. -/
inductive RpcId where
| null
| num (n : Int)
| str (s : String)
deriving DecidableEq

/-- `types.MCPError`: code, message, and the optional `data` diagnostic.
Every site in the dispatcher and transports stores a string in `data`,
so it is modelled as `Option String`. -/
structure MCPError where
  code : Int
  message : String
  data : Option String
deriving DecidableEq

/-- `types.ContentBlock`. -/
structure ContentBlock where
  type : String
  text : String
deriving DecidableEq

/-- `types.Tool`: name, description and input schema.  A Go nil map
(`types.Tool` zero value) is `none`. -/
structure Tool where
  name : String
  description : String
  inputSchema : Option (List (String × JValue))

/-- The success payload stored in `types.MCPResponse.Result`
(a Go `interface` value): the fixed capability descriptor object, a
`types.ListToolsResult`, or a `types.CallToolResult`. -/
inductive MCPResult where
| obj (v : JValue)
| toolList (tools : List Tool)
| callResult (content : List ContentBlock)

/-- `types.CallToolParams`: the name/arguments object decoded from the
raw `params` bytes of a `tools/call`. -/
structure CallToolParams where
  name : String
  arguments : List (String × JValue)

/-- The raw `params` bytes of a request (`json.RawMessage`): decoding
them into `types.CallToolParams` either fails with an error string or
succeeds. -/
inductive ParamsBytes where
| malformed (errMsg : String)
| wellFormed (p : CallToolParams)

/-- `types.MCPRequest`. -/
structure MCPRequest where
  jsonrpc : String
  id : RpcId
  method : String
  params : ParamsBytes

/-- `types.MCPResponse`.  `result` and `error` are `omitempty` pointers
or interfaces in Go, hence options here. -/
structure MCPResponse where
  jsonrpc : String
  id : RpcId
  result : Option MCPResult
  error : Option MCPError

/-- Error code constants of `pkg/mcp`. -/
def errorCodeInvalidRequest : Int := -32600

/-- JSON-RPC method-not-found code, reused for unknown tools. -/
def errorCodeMethodNotFound : Int := -32601

/-- JSON-RPC invalid-params code. -/
def errorCodeInvalidParams : Int := -32602

/-- JSON-RPC internal-error code. -/
def errorCodeInternalError : Int := -32603

/-- A tool handler: Go `func(params map[string]interface) (interface, error)`;
the result branch carries the value later serialized, the error branch
the Go error message. -/
def ToolHandler : Type := List (String × JValue) → Except String JValue

/-- The dispatch engine `mcp.Server`: its only field is the Go map from
tool name to handler, modelled as an association list with unique keys
maintained by `setKey`. -/
structure Server where
  tools : List (String × ToolHandler)

/-- `mcp.NewServer`. -/
def newServer : Server := { tools := [] }

/-- Go map assignment `m[n] = v`: replace the binding of `n` when it is
present, otherwise add one. -/
def setKey {β : Type} : List (String × β) → String → β → List (String × β)
| [], n, v => [(n, v)]
| (k, w) :: rest, n, v =>
  if k = n then (n, v) :: rest else (k, w) :: setKey rest n v

/-- Go map read `v, ok := m[n]`. -/
def lookupKey {β : Type} : List (String × β) → String → Option β
| [], _ => none
| (k, w) :: rest, n => if k = n then some w else lookupKey rest n

/-- `Server.RegisterTool`: the description and input schema arguments
are accepted and then dropped by the Go code, which stores only the
handler. -/
def registerTool (s : Server) (name : String) (description : String)
    (inputSchema : Option (List (String × JValue))) (handler : ToolHandler) : Server :=
  { tools := setKey s.tools name handler }

mutual

/-- `json.Marshal` on the embedded dynamic values: canonical text
serialization of a `JValue`. -/
def serializeJValue : JValue → String
| .jstr s => "\"" ++ s ++ "\""
| .jnum n => toString n
| .jbool b => if b then "true" else "false"
| .jarr items => "[" ++ serializeArr items ++ "]"
| .jobj fields => "\x7b" ++ serializeObj fields ++ "\x7d"

/-- Comma-separated serialization of a JSON array body. -/
def serializeArr : List JValue → String
| [] => ""
| [v] => serializeJValue v
| v :: w :: rest => serializeJValue v ++ "," ++ serializeArr (w :: rest)

/-- Comma-separated serialization of a JSON object body. -/
def serializeObj : List (String × JValue) → String
| [] => ""
| [(k, v)] => "\"" ++ k ++ "\":" ++ serializeJValue v
| (k, v) :: f :: rest =>
  "\"" ++ k ++ "\":" ++ serializeJValue v ++ "," ++ serializeObj (f :: rest)

end

/-- The six tool names that `Server.getToolDefinition` has entries
for. -/
def knownToolNames : List String :=
  ["basic_math", "advanced_math", "expression_eval", "statistics",
   "unit_conversion", "financial"]

/-- The `basic_math` entry of the definition table in
`Server.getToolDefinition`. -/
def basicMathTool : Tool :=
  { name := "basic_math"
    description := "Perform basic mathematical operations (add, subtract, multiply, divide)"
    inputSchema := some
      [("type", .jstr "object"),
       ("properties", .jobj
         [("operation", .jobj
            [("type", .jstr "string"),
             ("enum", .jarr [.jstr "add", .jstr "subtract", .jstr "multiply", .jstr "divide"])]),
          ("operands", .jobj
            [("type", .jstr "array"),
             ("items", .jobj [("type", .jstr "number")]),
             ("minItems", .jnum 2)]),
          ("precision", .jobj
            [("type", .jstr "integer"),
             ("minimum", .jnum 0),
             ("maximum", .jnum 15),
             ("default", .jnum 2)])]),
       ("required", .jarr [.jstr "operation", .jstr "operands"])] }

/-- The `advanced_math` entry of the definition table. -/
def advancedMathTool : Tool :=
  { name := "advanced_math"
    description := "Perform advanced mathematical functions (trigonometry, logarithms, etc.)"
    inputSchema := some
      [("type", .jstr "object"),
       ("properties", .jobj
         [("function", .jobj
            [("type", .jstr "string"),
             ("enum", .jarr [.jstr "sin", .jstr "cos", .jstr "tan", .jstr "asin",
                             .jstr "acos", .jstr "atan", .jstr "log", .jstr "log10",
                             .jstr "ln", .jstr "sqrt", .jstr "abs", .jstr "factorial",
                             .jstr "pow", .jstr "exp"])]),
          ("value", .jobj [("type", .jstr "number")]),
          ("unit", .jobj
            [("type", .jstr "string"),
             ("enum", .jarr [.jstr "radians", .jstr "degrees"]),
             ("default", .jstr "radians")])]),
       ("required", .jarr [.jstr "function", .jstr "value"])] }

/-- The `expression_eval` entry of the definition table. -/
def expressionEvalTool : Tool :=
  { name := "expression_eval"
    description := "Evaluate mathematical expressions with variable substitution"
    inputSchema := some
      [("type", .jstr "object"),
       ("properties", .jobj
         [("expression", .jobj [("type", .jstr "string")]),
          ("variables", .jobj
            [("type", .jstr "object"),
             ("patternProperties", .jobj
               [("^[a-zA-Z][a-zA-Z0-9_]*$", .jobj [("type", .jstr "number")])])])]),
       ("required", .jarr [.jstr "expression"])] }

/-- The `statistics` entry of the definition table. -/
def statisticsTool : Tool :=
  { name := "statistics"
    description := "Perform statistical analysis on data sets"
    inputSchema := some
      [("type", .jstr "object"),
       ("properties", .jobj
         [("data", .jobj
            [("type", .jstr "array"),
             ("items", .jobj [("type", .jstr "number")]),
             ("minItems", .jnum 1)]),
          ("operation", .jobj
            [("type", .jstr "string"),
             ("enum", .jarr [.jstr "mean", .jstr "median", .jstr "mode",
                             .jstr "std_dev", .jstr "variance", .jstr "percentile"])])]),
       ("required", .jarr [.jstr "data", .jstr "operation"])] }

/-- The `unit_conversion` entry of the definition table. -/
def unitConversionTool : Tool :=
  { name := "unit_conversion"
    description := "Convert between different units of measurement"
    inputSchema := some
      [("type", .jstr "object"),
       ("properties", .jobj
         [("value", .jobj [("type", .jstr "number")]),
          ("fromUnit", .jobj [("type", .jstr "string")]),
          ("toUnit", .jobj [("type", .jstr "string")]),
          ("category", .jobj
            [("type", .jstr "string"),
             ("enum", .jarr [.jstr "length", .jstr "weight", .jstr "temperature",
                             .jstr "volume", .jstr "area"])])]),
       ("required", .jarr [.jstr "value", .jstr "fromUnit", .jstr "toUnit", .jstr "category"])] }

/-- The `financial` entry of the definition table. -/
def financialTool : Tool :=
  { name := "financial"
    description := "Perform financial calculations (interest, loans, ROI)"
    inputSchema := some
      [("type", .jstr "object"),
       ("properties", .jobj
         [("operation", .jobj
            [("type", .jstr "string"),
             ("enum", .jarr [.jstr "compound_interest", .jstr "simple_interest",
                             .jstr "loan_payment", .jstr "roi",
                             .jstr "present_value", .jstr "future_value"])]),
          ("principal", .jobj [("type", .jstr "number"), ("minimum", .jnum 0)]),
          ("rate", .jobj [("type", .jstr "number"), ("minimum", .jnum 0)]),
          ("time", .jobj [("type", .jstr "number"), ("minimum", .jnum 0)]),
          ("periods", .jobj [("type", .jstr "integer"), ("minimum", .jnum 1)]),
          ("futureValue", .jobj [("type", .jstr "number"), ("minimum", .jnum 0)])]),
       ("required", .jarr [.jstr "operation"])] }

/-- `Server.getToolDefinition`: lookup of `name` in the literal
definition-table map; an absent name yields the `types.Tool` zero
value. -/
def getToolDefinition (name : String) : Tool :=
  if name = "basic_math" then basicMathTool
  else if name = "advanced_math" then advancedMathTool
  else if name = "expression_eval" then expressionEvalTool
  else if name = "statistics" then statisticsTool
  else if name = "unit_conversion" then unitConversionTool
  else if name = "financial" then financialTool
  else { name := "", description := "", inputSchema := none }

/-- The fixed capability descriptor returned by the `initialize`
method. -/
def initializeResult : JValue :=
  .jobj [("protocolVersion", .jstr "2024-11-05"),
         ("capabilities", .jobj [("tools", .jobj [])]),
         ("serverInfo", .jobj
           [("name", .jstr "calculator-server"),
            ("version", .jstr "1.0.0")])]

/-- `Server.HandleRequest`: the JSON-RPC method dispatch state
machine. -/
def handleRequest (s : Server) (req : MCPRequest) : MCPResponse :=
  if req.method = "initialize" then
    { jsonrpc := "2.0", id := req.id
      result := some (.obj initializeResult), error := none }
  else if req.method = "tools/list" then
    { jsonrpc := "2.0", id := req.id
      result := some (.toolList (s.tools.map (fun kv => getToolDefinition kv.1)))
      error := none }
  else if req.method = "tools/call" then
    match req.params with
    | .malformed errMsg =>
      { jsonrpc := "2.0", id := req.id, result := none
        error := some { code := errorCodeInvalidParams
                        message := "Invalid parameters", data := some errMsg } }
    | .wellFormed p =>
      match lookupKey s.tools p.name with
      | none =>
        { jsonrpc := "2.0", id := req.id, result := none
          error := some { code := errorCodeMethodNotFound
                          message := "Tool not found", data := some p.name } }
      | some handler =>
        match handler p.arguments with
        | .error e =>
          { jsonrpc := "2.0", id := req.id, result := none
            error := some { code := errorCodeInternalError
                            message := "Tool execution failed", data := some e } }
        | .ok v =>
          { jsonrpc := "2.0", id := req.id
            result := some (.callResult [{ type := "text", text := serializeJValue v }])
            error := none }
  else
    { jsonrpc := "2.0", id := req.id, result := none
      error := some { code := errorCodeMethodNotFound
                      message := "Method not found", data := some req.method } }

/-! ## Stdio transport (`Server.Run` / `Server.writeResponse`) -/

/-- One line read by the stdio loop from the input stream: the empty
line, a non-blank line whose JSON decoding fails with an error string,
or a non-blank line decoding to a request. -/
inductive StdinLine where
| blank
| malformed (errMsg : String)
| wellFormed (req : MCPRequest)

/-- The response written by `Server.Run` for a line whose JSON decoding
failed: the `id` field of the response literal is left at its zero
value. -/
def parseErrorResponse (errMsg : String) : MCPResponse :=
  { jsonrpc := "2.0", id := .null, result := none
    error := some { code := errorCodeInvalidRequest
                    message := "Parse error", data := some errMsg } }

/-- `Server.Run`: the scanner loop over the input lines, producing the
sequence of response lines written to standard output. -/
def runLoop (s : Server) : List StdinLine → List MCPResponse
| [] => []
| .blank :: rest => runLoop s rest
| .malformed m :: rest => parseErrorResponse m :: runLoop s rest
| .wellFormed req :: rest => handleRequest s req :: runLoop s rest

/-- Specification view of one loop iteration: the response (if any)
written for a single input line. -/
def lineResponse (s : Server) : StdinLine → Option MCPResponse
| .blank => none
| .malformed m => some (parseErrorResponse m)
| .wellFormed req => some (handleRequest s req)

/-- Whether a stdio input line is the blank line the loop skips. -/
def isBlankLine : StdinLine → Bool
| .blank => true
| _ => false

/-! ## HTTP transports: shared request/response shapes -/

/-- The body of an HTTP POST as seen after `json.Unmarshal` into
`types.MCPRequest`: either malformed (with the decoder error string and
the `id` field recoverable from the raw JSON map, when there is one) or
a well-formed request. -/
inductive Body where
| malformed (errMsg : String) (recoverableId : Option RpcId)
| wellFormed (req : MCPRequest)

/-- What an HTTP handler writes back: a plain-text `http.Error`, the
empty 200 body of a CORS pre-flight, a JSON body with a status code, a
single SSE `message` event carrying one response, or a long-lived SSE
stream (connection event plus heartbeats) for a session. -/
inductive HttpOutput where
| httpError (status : Nat) (text : String)
| optionsOk
| json (status : Nat) (resp : MCPResponse)
| sseMessage (resp : MCPResponse) (sessionID : String)
| sseStream (sessionID : String)

/-- The HTTP status an output is written with (`http.Error` uses its
argument, `WriteHeader(http.StatusOK)` is 200 for the pre-flight and the
SSE paths). -/
def outputStatus : HttpOutput → Nat
| .httpError status _ => status
| .optionsOk => 200
| .json status _ => status
| .sseMessage _ _ => 200
| .sseStream _ => 200

/-- Whether `pat` occurs as a contiguous sublist of `l`. -/
def hasInfix : List Char → List Char → Bool
| l, pat =>
  if pat.isPrefixOf l then true
  else match l with
  | [] => false
  | _ :: rest => hasInfix rest pat

/-- `strings.Contains`. -/
def strContains (s pat : String) : Bool :=
  hasInfix s.toList pat.toList

/-- The status-code mapping applied to a dispatched response, shared
verbatim by `HTTPTransport.handleMCP` and
`StreamableHTTPTransport.writeJSONResponse`: 200 without an error, else
by error code with a 500 default. -/
def httpStatusOf (resp : MCPResponse) : Nat :=
  match resp.error with
  | none => 200
  | some e =>
    if e.code = errorCodeInvalidRequest then 400
    else if e.code = errorCodeMethodNotFound then 404
    else if e.code = errorCodeInvalidParams then 400
    else if e.code = errorCodeInternalError then 500
    else 500

/-! ## Plain HTTP transport (`HTTPTransport.handleMCP`) -/

/-- `HTTPTransport.handleMCP`: POST-only, JSON content type required;
a body that fails to decode yields a 400 `InvalidRequest` body that
echoes an `id` recovered from the raw JSON map when possible; otherwise
the dispatched response is written with the mapped status code. -/
def httpHandleMCP (s : Server) (method contentType : String) (body : Body) : HttpOutput :=
  if method ≠ "POST" then .httpError 405 "Method not allowed"
  else if ¬ (strContains contentType "application/json" = true) then
    .httpError 400 "Content-Type must be application/json"
  else
    match body with
    | .malformed errMsg rid =>
      .json 400
        { jsonrpc := "2.0"
          id := match rid with | some v => v | none => .null
          result := none
          error := some { code := errorCodeInvalidRequest
                          message := "Invalid JSON-RPC request", data := some errMsg } }
    | .wellFormed req =>
      let resp := handleRequest s req
      .json (httpStatusOf resp) resp

/-! ## Streamable HTTP transport (`StreamableHTTPTransport`) -/

/-- `types.Session`. -/
structure Session where
  id : String
  createdAt : Int
  lastSeen : Int
  active : Bool

/-- The configuration fields of `StreamableHTTPConfig` that the request
path reads. -/
structure StreamableConfig where
  sessionTimeout : Int
  corsEnabled : Bool
  corsOrigins : List String

/-- The transport's session map (`sessions` field guarded by
`sessionsMux`). -/
structure SessionStore where
  sessions : List (String × Session)

/-- `StreamableHTTPTransport.isValidSession`: present, active, and not
expired — where expiry is `time.Since(lastSeen) > sessionTimeout`,
strictly greater. -/
def isValidSession (store : SessionStore) (timeout now : Int) (sessionID : String) : Bool :=
  match lookupKey store.sessions sessionID with
  | none => false
  | some sess =>
    if sess.active = false then false
    else if now - sess.lastSeen > timeout then false
    else true

/-- The list update behind `updateSessionActivity`: bump `lastSeen` of
the named session, when present. -/
def touchKey : List (String × Session) → String → Int → List (String × Session)
| [], _, _ => []
| (k, sess) :: rest, sessionID, now =>
  if k = sessionID then (k, { sess with lastSeen := now }) :: rest
  else (k, sess) :: touchKey rest sessionID now

/-- `StreamableHTTPTransport.updateSessionActivity`. -/
def updateSessionActivity (store : SessionStore) (sessionID : String) (now : Int) : SessionStore :=
  { sessions := touchKey store.sessions sessionID now }

/-- `StreamableHTTPTransport.createSession` with the freshly generated
random hex id passed in: records the session and returns its id. -/
def createSession (store : SessionStore) (freshId : String) (now : Int) : SessionStore :=
  { sessions := setKey store.sessions freshId
      { id := freshId, createdAt := now, lastSeen := now, active := true } }

/-- One wake-up of `cleanupExpiredSessions`: delete every session whose
`now - lastSeen` strictly exceeds the timeout. -/
def reapSessions (store : SessionStore) (timeout now : Int) : SessionStore :=
  { sessions := store.sessions.filter (fun kv => ¬ (now - kv.2.lastSeen > timeout)) }

/-- `StreamableHTTPTransport.shouldStream`. -/
def shouldStream (req : MCPRequest) : Bool :=
  req.method == "tools/call"

/-- `StreamableHTTPTransport.handlePOST`: Accept must include JSON or
SSE; a malformed body yields the `InvalidRequest` JSON error with a nil
id (via `writeErrorResponse`, whose status comes from the shared
mapping); a well-formed request is dispatched and framed as one SSE
`message` event exactly when SSE is accepted and `shouldStream` holds,
else as a JSON body. -/
def handlePOSTStreamable (s : Server) (accept : String) (body : Body)
    (sessionID : String) : HttpOutput :=
  if ¬ (strContains accept "application/json" = true) ∧
     ¬ (strContains accept "text/event-stream" = true) then
    .httpError 400 "Accept header must include application/json or text/event-stream"
  else
    match body with
    | .malformed errMsg _ =>
      let resp : MCPResponse :=
        { jsonrpc := "2.0", id := .null, result := none
          error := some { code := errorCodeInvalidRequest
                          message := "Invalid JSON-RPC request", data := some errMsg } }
      .json (httpStatusOf resp) resp
    | .wellFormed req =>
      let resp := handleRequest s req
      if strContains accept "text/event-stream" = true ∧ shouldStream req = true then
        .sseMessage resp sessionID
      else
        .json (httpStatusOf resp) resp

/-- `StreamableHTTPTransport.handleGET`: Accept must include SSE; with
no session id a fresh session is created; either way the long-lived SSE
stream is set up for the session. -/
def handleGETStreamable (store : SessionStore) (accept : String)
    (sessionID freshId : String) (now : Int) : HttpOutput × SessionStore :=
  if ¬ (strContains accept "text/event-stream" = true) then
    (.httpError 400 "Accept header must include text/event-stream for GET requests", store)
  else if sessionID = "" then
    (.sseStream freshId, createSession store freshId now)
  else
    (.sseStream sessionID, store)

/-- One request to the streamable transport, as read from its
headers and body; a Go `r.Header.Get` on an absent header is the empty
string. -/
structure StreamableRequest where
  method : String
  protocolVersion : String
  sessionID : String
  accept : String
  body : Body

/-- `StreamableHTTPTransport.handleMCP`: protocol-version gate first,
then session validation plus activity refresh for a presented session
id, then the POST/GET/other method switch. Returns the output and the
session store after the request. -/
def handleMCPStreamable (s : Server) (cfg : StreamableConfig) (store : SessionStore)
    (now : Int) (freshId : String) (r : StreamableRequest) : HttpOutput × SessionStore :=
  if r.protocolVersion = "" then
    (.httpError 400 "MCP-Protocol-Version header required", store)
  else if r.sessionID ≠ "" ∧ isValidSession store cfg.sessionTimeout now r.sessionID = false then
    (.httpError 401 "Invalid or expired session", store)
  else
    let store1 := if r.sessionID ≠ "" then updateSessionActivity store r.sessionID now else store
    if r.method = "POST" then
      (handlePOSTStreamable s r.accept r.body r.sessionID, store1)
    else if r.method = "GET" then
      handleGETStreamable store1 r.accept r.sessionID freshId now
    else
      (.httpError 405 "Method not allowed", store1)

/-- The streamable transport's full serving function,
`corsMiddleware(mux)`: with CORS enabled an OPTIONS request is answered
200 by the middleware before any routing; every other request reaches
`handleMCP`. -/
def serveStreamable (s : Server) (cfg : StreamableConfig) (store : SessionStore)
    (now : Int) (freshId : String) (r : StreamableRequest) : HttpOutput × SessionStore :=
  if cfg.corsEnabled = true ∧ r.method = "OPTIONS" then
    (.optionsOk, store)
  else
    handleMCPStreamable s cfg store now freshId r

/-! ## Theorems -/

/-- Claim C6: for every tools/call request whose params bytes fail to
parse into the name/arguments shape, the dispatcher's response has
error code InvalidParams (-32602) and no result is populated. -/
theorem c6_invalid_params (s : Server) (req : MCPRequest) (m : String)
    (hm : req.method = "tools/call") (hp : req.params = ParamsBytes.malformed m) :
    (handleRequest s req).error =
      some { code := errorCodeInvalidParams
             message := "Invalid parameters", data := some m } ∧
    (handleRequest s req).result = none ∧
    errorCodeInvalidParams = -32602 := by
  refine ⟨?_, ?_, rfl⟩ <;> simp [handleRequest, hm, hp]

/-- Witness for C6 at a concrete malformed tools/call request. -/
theorem c6_invalid_params_witness :
    (handleRequest newServer
      { jsonrpc := "2.0", id := .num 1, method := "tools/call"
        params := ParamsBytes.malformed "unexpected end of JSON input" }).error =
      some { code := errorCodeInvalidParams
             message := "Invalid parameters"
             data := some "unexpected end of JSON input" } ∧
    (handleRequest newServer
      { jsonrpc := "2.0", id := .num 1, method := "tools/call"
        params := ParamsBytes.malformed "unexpected end of JSON input" }).result = none ∧
    errorCodeInvalidParams = -32602 :=
  c6_invalid_params newServer
    { jsonrpc := "2.0", id := .num 1, method := "tools/call"
      params := ParamsBytes.malformed "unexpected end of JSON input" }
    "unexpected end of JSON input" rfl rfl

/-- An unknown-top-level-method request used to exhibit C5's message
difference. -/
def unknownMethodReq : MCPRequest :=
  { jsonrpc := "2.0", id := .num 1, method := "bogus/method"
    params := ParamsBytes.malformed "" }

/-- A tools/call request naming a tool no registry entry exists for. -/
def unknownToolReq : MCPRequest :=
  { jsonrpc := "2.0", id := .num 2, method := "tools/call"
    params := ParamsBytes.wellFormed { name := "ghost_tool", arguments := [] } }

/-- Claim C5 counterexample: both cases do carry code -32601, but they
are additionally distinguished by the error message ("Method not found"
versus "Tool not found"), so the data field is not the only
distinguishing field. -/
theorem c5_counterexample :
    (handleRequest newServer unknownMethodReq).error =
      some { code := errorCodeMethodNotFound
             message := "Method not found", data := some "bogus/method" } ∧
    (handleRequest newServer unknownToolReq).error =
      some { code := errorCodeMethodNotFound
             message := "Tool not found", data := some "ghost_tool" } ∧
    ("Method not found" : String) ≠ "Tool not found" := by
  refine ⟨rfl, rfl, by decide⟩

/-- Claim C5 (amended): the error code MethodNotFound (-32601) is
returned both for an unknown top-level method and for a tools/call
naming an unregistered tool; the data field carries the requested
method string in the first case and the tool name in the second, while
the message also differs between the two cases ("Method not found"
versus "Tool not found"). -/
theorem c5_method_not_found (s : Server) (req : MCPRequest) :
    (req.method ≠ "initialize" → req.method ≠ "tools/list" → req.method ≠ "tools/call" →
      handleRequest s req =
        { jsonrpc := "2.0", id := req.id, result := none
          error := some { code := errorCodeMethodNotFound
                          message := "Method not found", data := some req.method } }) ∧
    (∀ p : CallToolParams, req.method = "tools/call" →
      req.params = ParamsBytes.wellFormed p → lookupKey s.tools p.name = none →
      handleRequest s req =
        { jsonrpc := "2.0", id := req.id, result := none
          error := some { code := errorCodeMethodNotFound
                          message := "Tool not found", data := some p.name } }) ∧
    errorCodeMethodNotFound = -32601 := by
  refine ⟨fun h1 h2 h3 => ?_, fun p hm hp hl => ?_, rfl⟩
  · simp [handleRequest, h1, h2, h3]
  · simp [handleRequest, hm, hp, hl]

/-- Witness for C5 at concrete unknown-method and unknown-tool
requests. -/
theorem c5_method_not_found_witness :
    handleRequest newServer unknownMethodReq =
      { jsonrpc := "2.0", id := RpcId.num 1, result := none
        error := some { code := errorCodeMethodNotFound
                        message := "Method not found", data := some "bogus/method" } } ∧
    handleRequest newServer unknownToolReq =
      { jsonrpc := "2.0", id := RpcId.num 2, result := none
        error := some { code := errorCodeMethodNotFound
                        message := "Tool not found", data := some "ghost_tool" } } :=
  ⟨(c5_method_not_found newServer unknownMethodReq).1
      (by decide) (by decide) (by decide),
   (c5_method_not_found newServer unknownToolReq).2.1
      { name := "ghost_tool", arguments := [] } rfl rfl rfl⟩

/-- Claim C7: on the plain HTTP transport, a dispatched POST /mcp is
written with status 400 for InvalidRequest or InvalidParams, 404 for
MethodNotFound, 500 for InternalError, and 200 when no error is
present. -/
theorem c7_status_mapping (s : Server) (req : MCPRequest) :
    httpHandleMCP s "POST" "application/json" (Body.wellFormed req) =
      .json (httpStatusOf (handleRequest s req)) (handleRequest s req) ∧
    (∀ resp : MCPResponse,
      (resp.error = none → httpStatusOf resp = 200) ∧
      (∀ e : MCPError, resp.error = some e →
        ((e.code = errorCodeInvalidRequest ∨ e.code = errorCodeInvalidParams) →
          httpStatusOf resp = 400) ∧
        (e.code = errorCodeMethodNotFound → httpStatusOf resp = 404) ∧
        (e.code = errorCodeInternalError → httpStatusOf resp = 500))) := by
  constructor
  · simp [httpHandleMCP, strContains, hasInfix]
  · intro resp
    constructor
    · intro hnone; simp [httpStatusOf, hnone]
    · intro e he
      refine ⟨fun hc => ?_, fun hc => ?_, fun hc => ?_⟩
      · rcases hc with hc | hc <;>
          simp [httpStatusOf, he, hc, errorCodeInvalidRequest, errorCodeMethodNotFound,
                errorCodeInvalidParams]
      · simp [httpStatusOf, he, hc, errorCodeInvalidRequest, errorCodeMethodNotFound]
      · simp [httpStatusOf, he, hc, errorCodeInvalidRequest, errorCodeMethodNotFound,
              errorCodeInvalidParams, errorCodeInternalError]

/-- Witness for C7: an unregistered tool call over the plain transport
is written as HTTP 404 with the MethodNotFound body. -/
theorem c7_status_mapping_witness :
    httpHandleMCP newServer "POST" "application/json" (Body.wellFormed unknownToolReq) =
      .json (httpStatusOf (handleRequest newServer unknownToolReq))
            (handleRequest newServer unknownToolReq) ∧
    httpStatusOf (handleRequest newServer unknownToolReq) = 404 :=
  ⟨(c7_status_mapping newServer unknownToolReq).1,
   (((c7_status_mapping newServer unknownToolReq).2
        (handleRequest newServer unknownToolReq)).2
      { code := errorCodeMethodNotFound
        message := "Tool not found", data := some "ghost_tool" } rfl).2.1 rfl⟩

/-- Claim C8: the stdio loop skips blank lines, writes exactly one
response per non-blank line in input order, and a malformed line yields
the InvalidRequest parse-error response without affecting later
lines. -/
theorem c8_stdio_loop (s : Server) (lines rest : List StdinLine)
    (m : String) (req : MCPRequest) :
    runLoop s lines = lines.filterMap (lineResponse s) ∧
    runLoop s (StdinLine.blank :: rest) = runLoop s rest ∧
    runLoop s (StdinLine.malformed m :: rest) = parseErrorResponse m :: runLoop s rest ∧
    (parseErrorResponse m).error =
      some { code := errorCodeInvalidRequest
             message := "Parse error", data := some m } ∧
    runLoop s (StdinLine.wellFormed req :: rest) = handleRequest s req :: runLoop s rest ∧
    (runLoop s lines).length = (lines.filter (fun x => ! isBlankLine x)).length := by
  have hfm : ∀ ls : List StdinLine, runLoop s ls = ls.filterMap (lineResponse s) := by
    intro ls
    induction ls with
    | nil => rfl
    | cons x rest ih => cases x <;> simp [runLoop, lineResponse, ih]
  have hlen : ∀ ls : List StdinLine,
      (runLoop s ls).length = (ls.filter (fun x => ! isBlankLine x)).length := by
    intro ls
    induction ls with
    | nil => rfl
    | cons x rest ih => cases x <;> simp [runLoop, isBlankLine, ih]
  exact ⟨hfm lines, rfl, rfl, rfl, rfl, hlen lines⟩

/-- Claim C10: on the streamable transport a malformed POST body gets
the InvalidRequest error with a null id even when an id was recoverable
from the raw body, while the plain HTTP transport echoes the recovered
id. -/
theorem c10_malformed_id (s : Server) (accept m sid : String) (rid : Option RpcId) (v : RpcId)
    (hacc : strContains accept "application/json" = true ∨
            strContains accept "text/event-stream" = true) :
    handlePOSTStreamable s accept (Body.malformed m rid) sid =
      .json 400 { jsonrpc := "2.0", id := RpcId.null, result := none
                  error := some { code := errorCodeInvalidRequest
                                  message := "Invalid JSON-RPC request", data := some m } } ∧
    (rid = some v →
      httpHandleMCP s "POST" "application/json" (Body.malformed m rid) =
        .json 400 { jsonrpc := "2.0", id := v, result := none
                    error := some { code := errorCodeInvalidRequest
                                    message := "Invalid JSON-RPC request", data := some m } }) := by
  have hno : ¬ (¬ (strContains accept "application/json" = true) ∧
                ¬ (strContains accept "text/event-stream" = true)) := by
    rcases hacc with h | h <;> simp [h]
  constructor
  · rw [handlePOSTStreamable, if_neg hno]
    exact rfl
  · intro hrid
    simp [httpHandleMCP, strContains, hasInfix, hrid]

/-- Witness for C10 with a recoverable id of 7. -/
theorem c10_malformed_id_witness :
    handlePOSTStreamable newServer "application/json"
        (Body.malformed "invalid character" (some (RpcId.num 7))) "" =
      .json 400 { jsonrpc := "2.0", id := RpcId.null, result := none
                  error := some { code := errorCodeInvalidRequest
                                  message := "Invalid JSON-RPC request"
                                  data := some "invalid character" } } ∧
    httpHandleMCP newServer "POST" "application/json"
        (Body.malformed "invalid character" (some (RpcId.num 7))) =
      .json 400 { jsonrpc := "2.0", id := RpcId.num 7, result := none
                  error := some { code := errorCodeInvalidRequest
                                  message := "Invalid JSON-RPC request"
                                  data := some "invalid character" } } :=
  ⟨(c10_malformed_id newServer "application/json" "invalid character" ""
      (some (RpcId.num 7)) (RpcId.num 7) (Or.inl (by decide))).1,
   (c10_malformed_id newServer "application/json" "invalid character" ""
      (some (RpcId.num 7)) (RpcId.num 7) (Or.inl (by decide))).2 rfl⟩

/-- Helper: with an Accept header naming JSON or SSE, a well-formed
POST body on the streamable transport is dispatched and framed by the
SSE-accepted/`shouldStream` test. -/
theorem handlePOST_wellFormed_eq (s : Server) (accept sid : String) (req : MCPRequest)
    (hacc : strContains accept "application/json" = true ∨
            strContains accept "text/event-stream" = true) :
    handlePOSTStreamable s accept (Body.wellFormed req) sid =
      if strContains accept "text/event-stream" = true ∧ req.method = "tools/call" then
        .sseMessage (handleRequest s req) sid
      else
        .json (httpStatusOf (handleRequest s req)) (handleRequest s req) := by
  have hno : ¬ (¬ (strContains accept "application/json" = true) ∧
                ¬ (strContains accept "text/event-stream" = true)) := by
    rcases hacc with h | h <;> simp [h]
  rw [handlePOSTStreamable, if_neg hno]
  simp only [shouldStream, beq_iff_eq]

/-- Claim C4: on the streamable transport a POST response is framed as
a single SSE message event exactly when the Accept header includes the
SSE media type and the request method is tools/call; every other
method receives plain JSON even when SSE is accepted; and a body that
fails to parse yields the InvalidRequest error as plain JSON. -/
theorem c4_sse_framing (s : Server) (accept : String) (body : Body) (sid : String)
    (hacc : strContains accept "application/json" = true ∨
            strContains accept "text/event-stream" = true) :
    ((∃ resp, handlePOSTStreamable s accept body sid = .sseMessage resp sid) ↔
      (strContains accept "text/event-stream" = true ∧
       ∃ req, body = Body.wellFormed req ∧ req.method = "tools/call")) ∧
    (∀ req, body = Body.wellFormed req →
      handlePOSTStreamable s accept body sid =
        if strContains accept "text/event-stream" = true ∧ req.method = "tools/call" then
          .sseMessage (handleRequest s req) sid
        else
          .json (httpStatusOf (handleRequest s req)) (handleRequest s req)) ∧
    (∀ m rid, body = Body.malformed m rid →
      handlePOSTStreamable s accept body sid =
        .json 400 { jsonrpc := "2.0", id := RpcId.null, result := none
                    error := some { code := errorCodeInvalidRequest
                                    message := "Invalid JSON-RPC request"
                                    data := some m } }) := by
  have hno : ¬ (¬ (strContains accept "application/json" = true) ∧
                ¬ (strContains accept "text/event-stream" = true)) := by
    rcases hacc with h | h <;> simp [h]
  refine ⟨?_, fun req hreq => ?_, fun m rid hbody => ?_⟩
  · cases body with
    | malformed m rid =>
      constructor
      · rintro ⟨resp, hresp⟩
        rw [handlePOSTStreamable, if_neg hno] at hresp
        exact absurd hresp (by simp)
      · rintro ⟨_, req, hreq, _⟩
        exact absurd hreq (by simp)
    | wellFormed req =>
      rw [handlePOST_wellFormed_eq s accept sid req hacc]
      by_cases hc : strContains accept "text/event-stream" = true ∧ req.method = "tools/call"
      · rw [if_pos hc]
        constructor
        · intro _
          exact ⟨hc.1, req, rfl, hc.2⟩
        · intro _
          exact ⟨handleRequest s req, rfl⟩
      · rw [if_neg hc]
        constructor
        · rintro ⟨resp, hresp⟩
          exact absurd hresp (by simp)
        · rintro ⟨hsse, req2, hreq2, hm2⟩
          cases hreq2
          exact absurd ⟨hsse, hm2⟩ hc
  · subst hreq
    exact handlePOST_wellFormed_eq s accept sid req hacc
  · subst hbody
    rw [handlePOSTStreamable, if_neg hno]
    exact rfl

/-- Witness for C4: an SSE-accepting tools/call gets one SSE message
event, the same call with a JSON-only Accept gets plain JSON, and a
tools/list with SSE accepted still gets plain JSON. -/
theorem c4_sse_framing_witness :
    handlePOSTStreamable newServer "text/event-stream" (Body.wellFormed unknownToolReq) "" =
      .sseMessage (handleRequest newServer unknownToolReq) "" ∧
    handlePOSTStreamable newServer "application/json" (Body.wellFormed unknownToolReq) "" =
      .json (httpStatusOf (handleRequest newServer unknownToolReq))
            (handleRequest newServer unknownToolReq) ∧
    handlePOSTStreamable newServer "text/event-stream"
        (Body.wellFormed { jsonrpc := "2.0", id := .num 3, method := "tools/list"
                           params := ParamsBytes.malformed "" }) "" =
      .json 200 { jsonrpc := "2.0", id := .num 3
                  result := some (.toolList []), error := none } := by
  refine ⟨?_, ?_, ?_⟩
  · rw [(c4_sse_framing newServer "text/event-stream" (Body.wellFormed unknownToolReq) ""
          (Or.inr (by decide))).2.1 unknownToolReq rfl]
    exact if_pos ⟨by decide, rfl⟩
  · rw [(c4_sse_framing newServer "application/json" (Body.wellFormed unknownToolReq) ""
          (Or.inl (by decide))).2.1 unknownToolReq rfl]
    rw [if_neg (by decide)]
  · rw [(c4_sse_framing newServer "text/event-stream"
          (Body.wellFormed { jsonrpc := "2.0", id := .num 3, method := "tools/list"
                             params := ParamsBytes.malformed "" }) ""
          (Or.inr (by decide))).2.1 _ rfl]
    rw [if_neg (by decide)]
    exact rfl

/-- Helper: looking up a session after `touchKey` sees the bumped
`lastSeen`. -/
theorem lookupKey_touchKey (l : List (String × Session)) (sid : String) (now : Int) :
    lookupKey (touchKey l sid now) sid =
      (lookupKey l sid).map (fun sess => { sess with lastSeen := now }) := by
  induction l with
  | nil => rfl
  | cons kv rest ih =>
    obtain ⟨k, sess⟩ := kv
    by_cases hk : k = sid <;> simp [touchKey, lookupKey, hk, ih]

/-- A session whose last activity is at time 0, with a timeout of 5:
the boundary check at time 5 is the C2 counterexample. -/
def boundarySession : Session :=
  { id := "sess", createdAt := 0, lastSeen := 0, active := true }

/-- A store holding only `boundarySession`. -/
def boundaryStore : SessionStore :=
  { sessions := [("sess", boundarySession)] }

/-- Claim C2 counterexample: at a check time exactly `timeout` after
`lastSeen` (5 - 0 >= 5) the code still reports the session valid,
because expiry uses a strict comparison; the claim says this check must
fail. -/
theorem c2_counterexample :
    (5 : Int) - boundarySession.lastSeen ≥ 5 ∧
    isValidSession boundaryStore 5 5 "sess" = true := by
  exact ⟨by decide, by decide⟩

/-- Claim C2 (amended): a validation check at time Tp with
Tp - lastSeen ≤ timeout succeeds (and touching refreshes lastSeen to
Tp), and a check at time Tpp with Tpp - lastSeen > timeout (strictly)
fails. -/
theorem c2_session_lifecycle (store : SessionStore) (sess : Session) (sid : String)
    (D L Tp Tpp : Int)
    (hlook : lookupKey store.sessions sid = some sess)
    (hact : sess.active = true) (hseen : sess.lastSeen = L) :
    (Tp - L ≤ D →
      isValidSession store D Tp sid = true ∧
      lookupKey (updateSessionActivity store sid Tp).sessions sid =
        some { sess with lastSeen := Tp }) ∧
    (Tpp - L > D → isValidSession store D Tpp sid = false) := by
  constructor
  · intro hTp
    constructor
    · simp only [isValidSession, hlook, hact]
      rw [if_neg (by simp), if_neg (by omega)]
    · simp [updateSessionActivity, lookupKey_touchKey, hlook]
  · intro hTpp
    simp only [isValidSession, hlook, hact]
    rw [if_neg (by simp), if_pos (by omega)]

/-- Witness for C2 on `boundaryStore` with timeout 5: valid and
refreshed at time 3, invalid at time 9. -/
theorem c2_session_lifecycle_witness :
    isValidSession boundaryStore 5 3 "sess" = true ∧
    lookupKey (updateSessionActivity boundaryStore "sess" 3).sessions "sess" =
      some { boundarySession with lastSeen := 3 } ∧
    isValidSession boundaryStore 5 9 "sess" = false :=
  ⟨((c2_session_lifecycle boundaryStore boundarySession "sess" 5 0 3 9
      rfl rfl rfl).1 (by decide)).1,
   ((c2_session_lifecycle boundaryStore boundarySession "sess" 5 0 3 9
      rfl rfl rfl).1 (by decide)).2,
   (c2_session_lifecycle boundaryStore boundarySession "sess" 5 0 3 9
      rfl rfl rfl).2 (by decide)⟩

/-- The default streamable configuration: CORS enabled with a wildcard
origin. -/
def corsOnConfig : StreamableConfig :=
  { sessionTimeout := 300, corsEnabled := true, corsOrigins := ["*"] }

/-- An empty session store. -/
def emptyStore : SessionStore := { sessions := [] }

/-- An OPTIONS pre-flight request without the protocol-version
header. -/
def preflightNoVersion : StreamableRequest :=
  { method := "OPTIONS", protocolVersion := "", sessionID := ""
    accept := "", body := Body.malformed "" none }

/-- Claim C3 counterexample: with CORS enabled (the default), an
OPTIONS request without the MCP-Protocol-Version header is answered
200 by the CORS middleware, not 400. -/
theorem c3_counterexample :
    preflightNoVersion.protocolVersion = "" ∧
    (serveStreamable newServer corsOnConfig emptyStore 0 "fresh" preflightNoVersion).1 =
      HttpOutput.optionsOk ∧
    outputStatus
      (serveStreamable newServer corsOnConfig emptyStore 0 "fresh" preflightNoVersion).1 = 200 :=
  ⟨rfl, rfl, rfl⟩

/-- Claim C3 (amended): a request to the streamable transport's /mcp
route lacking the MCP-Protocol-Version header is answered HTTP 400
regardless of body content, for every method except an OPTIONS request
with CORS enabled, which the CORS middleware answers 200 before
routing. -/
theorem c3_missing_version (s : Server) (cfg : StreamableConfig) (store : SessionStore)
    (now : Int) (freshId : String) (r : StreamableRequest)
    (hv : r.protocolVersion = "")
    (hopt : cfg.corsEnabled = false ∨ r.method ≠ "OPTIONS") :
    serveStreamable s cfg store now freshId r =
      (.httpError 400 "MCP-Protocol-Version header required", store) := by
  have hcors : ¬ (cfg.corsEnabled = true ∧ r.method = "OPTIONS") := by
    rcases hopt with h | h <;> simp [h]
  rw [serveStreamable, if_neg hcors, handleMCPStreamable, if_pos hv]

/-- Witness for C3 on a POST and on a GET without the header. -/
theorem c3_missing_version_witness :
    serveStreamable newServer corsOnConfig emptyStore 0 "fresh"
        { method := "POST", protocolVersion := "", sessionID := ""
          accept := "application/json", body := Body.malformed "" none } =
      (.httpError 400 "MCP-Protocol-Version header required", emptyStore) ∧
    serveStreamable newServer corsOnConfig emptyStore 0 "fresh"
        { method := "GET", protocolVersion := "", sessionID := ""
          accept := "text/event-stream", body := Body.malformed "" none } =
      (.httpError 400 "MCP-Protocol-Version header required", emptyStore) :=
  ⟨c3_missing_version newServer corsOnConfig emptyStore 0 "fresh" _ rfl
      (Or.inr (by decide)),
   c3_missing_version newServer corsOnConfig emptyStore 0 "fresh" _ rfl
      (Or.inr (by decide))⟩

/-- Helper: the definition table maps each of the six known names to a
tool of the same name. -/
theorem getToolDefinition_known (n : String) (hn : n ∈ knownToolNames) :
    (getToolDefinition n).name = n := by
  simp only [knownToolNames, List.mem_cons, List.not_mem_nil, or_false] at hn
  rcases hn with h | h | h | h | h | h <;> subst h <;> rfl

/-- Helper: the definition table yields the zero-value tool for a name
outside the six known names. -/
theorem getToolDefinition_unknown (n : String) (hn : n ∉ knownToolNames) :
    getToolDefinition n = { name := "", description := "", inputSchema := none } := by
  simp only [knownToolNames, List.mem_cons, List.not_mem_nil, or_false, not_or] at hn
  obtain ⟨h1, h2, h3, h4, h5, h6⟩ := hn
  simp [getToolDefinition, h1, h2, h3, h4, h5, h6]

/-- Claim C9: RegisterTool discards its description and schema
arguments (registries registered with different metadata are equal
states), the listing metadata comes from the fixed six-name definition
table, a name outside the table is listed as the zero-value tool, and
tools/list maps the table over the registered names. -/
theorem c9_register_discards_metadata :
    (∀ (s : Server) (n d1 d2 : String) (sc1 sc2 : Option (List (String × JValue)))
       (h : ToolHandler),
      registerTool s n d1 sc1 h = registerTool s n d2 sc2 h) ∧
    (∀ n : String, n ∉ knownToolNames →
      getToolDefinition n = { name := "", description := "", inputSchema := none }) ∧
    (∀ n : String, n ∈ knownToolNames → (getToolDefinition n).name = n) ∧
    (∀ (s : Server) (rid : RpcId) (pb : ParamsBytes),
      handleRequest s { jsonrpc := "2.0", id := rid, method := "tools/list", params := pb } =
        { jsonrpc := "2.0", id := rid
          result := some (.toolList (s.tools.map (fun kv => getToolDefinition kv.1)))
          error := none }) :=
  ⟨fun _ _ _ _ _ _ _ => rfl,
   getToolDefinition_unknown,
   getToolDefinition_known,
   fun _ _ _ => rfl⟩

/-- A handler used in concrete examples; its behavior is irrelevant to
the registry claims. -/
def dummyHandler : ToolHandler := fun _ => Except.ok (.jnum 0)

/-- Witness for C9: equal registry states under different metadata, the
zero-value listing entry for an unknown name, and the fixed name of the
financial table entry. -/
theorem c9_register_discards_metadata_witness :
    registerTool newServer "basic_math" "my own description" none dummyHandler =
      registerTool newServer "basic_math" "another description"
        (some [("type", .jstr "object")]) dummyHandler ∧
    getToolDefinition "custom_tool" = { name := "", description := "", inputSchema := none } ∧
    (getToolDefinition "financial").name = "financial" :=
  ⟨c9_register_discards_metadata.1 newServer "basic_math" "my own description"
      "another description" none (some [("type", .jstr "object")]) dummyHandler,
   c9_register_discards_metadata.2.1 "custom_tool" (by decide),
   c9_register_discards_metadata.2.2.1 "financial" (by decide)⟩

/-- Projection of the tool listing out of a tools/list response. -/
def listedTools (resp : MCPResponse) : List Tool :=
  match resp.result with
  | some (.toolList ts) => ts
  | _ => []

/-- One `RegisterTool` call, as recorded for building a registry. -/
structure Registration where
  name : String
  description : String
  inputSchema : Option (List (String × JValue))
  handler : ToolHandler

/-- The registry obtained by performing a sequence of `RegisterTool`
calls on a fresh server. -/
def serverOfRegs (regs : List Registration) : Server :=
  regs.foldl
    (fun s r => registerTool s r.name r.description r.inputSchema r.handler)
    newServer

/-- Helper: membership in the key set after a map update. -/
theorem mem_keys_setKey {β : Type} (l : List (String × β)) (n m : String) (v : β) :
    m ∈ (setKey l n v).map Prod.fst ↔ m ∈ l.map Prod.fst ∨ m = n := by
  induction l with
  | nil => simp [setKey]
  | cons kv rest ih =>
    obtain ⟨k, w⟩ := kv
    by_cases hk : k = n
    · subst hk
      simp [setKey]
      tauto
    · simp [setKey, hk, ih]
      tauto

/-- Helper: a map update preserves distinctness of the keys. -/
theorem nodup_keys_setKey {β : Type} (l : List (String × β)) (n : String) (v : β)
    (h : (l.map Prod.fst).Nodup) : ((setKey l n v).map Prod.fst).Nodup := by
  induction l with
  | nil => simp [setKey]
  | cons kv rest ih =>
    obtain ⟨k, w⟩ := kv
    simp only [List.map_cons, List.nodup_cons] at h
    by_cases hk : k = n
    · subst hk
      simpa [setKey] using h
    · simp only [setKey, if_neg hk, List.map_cons, List.nodup_cons]
      refine ⟨?_, ih h.2⟩
      intro hmem
      rcases (mem_keys_setKey rest n k v).1 hmem with hc | hc
      · exact h.1 hc
      · exact hk hc

/-- Helper: a registry built by a fold of `RegisterTool` calls has
distinct tool names, and its name set is the set of registered
names. -/
theorem serverOfRegs_keys (regs : List Registration) :
    ((serverOfRegs regs).tools.map Prod.fst).Nodup ∧
    (∀ m : String, m ∈ (serverOfRegs regs).tools.map Prod.fst ↔
      m ∈ regs.map Registration.name) := by
  suffices h : ∀ (s : Server), (s.tools.map Prod.fst).Nodup →
      ((regs.foldl
          (fun s r => registerTool s r.name r.description r.inputSchema r.handler)
          s).tools.map Prod.fst).Nodup ∧
      (∀ m : String,
        m ∈ (regs.foldl
              (fun s r => registerTool s r.name r.description r.inputSchema r.handler)
              s).tools.map Prod.fst ↔
          m ∈ s.tools.map Prod.fst ∨ m ∈ regs.map Registration.name) by
    obtain ⟨h1, h2⟩ := h newServer (by simp [newServer])
    refine ⟨h1, fun m => ?_⟩
    rw [serverOfRegs, h2 m]
    simp [newServer]
  induction regs with
  | nil =>
    intro s hs
    exact ⟨hs, fun m => by simp⟩
  | cons r rest ih =>
    intro s hs
    have hnd : (((registerTool s r.name r.description r.inputSchema r.handler).tools).map
        Prod.fst).Nodup := nodup_keys_setKey s.tools r.name r.handler hs
    obtain ⟨ha, hb⟩ := ih (registerTool s r.name r.description r.inputSchema r.handler) hnd
    refine ⟨ha, fun m => ?_⟩
    rw [List.foldl_cons, hb m]
    simp only [registerTool, mem_keys_setKey, List.map_cons, List.mem_cons]
    tauto

/-- Helper: testing a listed entry's name against a known tool name is
the same as testing the registered name itself. -/
theorem name_test_eq (k n : String) (hn : n ∈ knownToolNames) :
    ((getToolDefinition k).name == n) = (k == n) := by
  by_cases hk : k ∈ knownToolNames
  · rw [getToolDefinition_known k hk]
  · rw [getToolDefinition_unknown k hk]
    have hne : n ≠ "" := by
      simp only [knownToolNames, List.mem_cons, List.not_mem_nil, or_false] at hn
      rcases hn with h | h | h | h | h | h <;> subst h <;> decide
    have hkn : k ≠ n := fun h => hk (h ▸ hn)
    have h1 : (("" : String) == n) = false := by
      rw [← Bool.not_eq_true]
      simp only [beq_iff_eq]
      exact fun h => hne h.symm
    have h2 : (k == n) = false := by
      rw [← Bool.not_eq_true]
      simp only [beq_iff_eq]
      exact hkn
    rw [h1, h2]

/-- Helper: counting listed names over a key list is counting the keys
themselves, for a known target name. -/
theorem countP_comp_name (ks : List String) (n : String) (hn : n ∈ knownToolNames) :
    ks.countP ((fun t => t.name == n) ∘ getToolDefinition) =
      ks.countP (fun k => k == n) := by
  induction ks with
  | nil => rfl
  | cons k rest ih =>
    simp only [List.countP_cons, Function.comp_apply, name_test_eq k n hn, ih]

/-- Helper: among distinct keys containing a known name `n`, exactly
one table entry is listed with name `n`. -/
theorem countP_listing_one (ks : List String) (n : String)
    (hnd : ks.Nodup) (hmem : n ∈ ks) (hn : n ∈ knownToolNames) :
    (ks.map getToolDefinition).countP (fun t => t.name == n) = 1 := by
  rw [List.countP_map, countP_comp_name ks n hn]
  have hc : ks.countP (fun k => k == n) = ks.count n := rfl
  rw [hc]
  exact List.count_eq_one_of_mem hnd hmem

/-- A registry holding only an off-table tool name. -/
def customOnlyServer : Server :=
  registerTool newServer "custom_tool" "A custom tool" none dummyHandler

/-- A tools/list request. -/
def toolsListReq : MCPRequest :=
  { jsonrpc := "2.0", id := .num 1, method := "tools/list", params := .malformed "" }

/-- Claim C1 counterexample: the name custom_tool is registered, yet
the tools/list result contains zero entries named custom_tool (its
entry is the zero-value tool, because the listing metadata comes from
the fixed six-name definition table). -/
theorem c1_counterexample :
    (lookupKey customOnlyServer.tools "custom_tool").isSome = true ∧
    (listedTools (handleRequest customOnlyServer toolsListReq)).countP
      (fun t => t.name == "custom_tool") = 0 :=
  ⟨rfl, rfl⟩

/-- Claim C1 (amended): for every tool name n registered via
RegisterTool that is one of the six names of the fixed definition
table, the tools/list result contains exactly one entry whose name
equals n, even if n was registered more than once. -/
theorem c1_list_unique (regs : List Registration) (n : String) (rid : RpcId)
    (pb : ParamsBytes)
    (hreg : n ∈ regs.map Registration.name) (hknown : n ∈ knownToolNames) :
    (listedTools (handleRequest (serverOfRegs regs)
        { jsonrpc := "2.0", id := rid, method := "tools/list", params := pb })).countP
      (fun t => t.name == n) = 1 := by
  obtain ⟨hnd, hmem⟩ := serverOfRegs_keys regs
  have hmemn : n ∈ (serverOfRegs regs).tools.map Prod.fst := (hmem n).2 hreg
  have hlist : listedTools (handleRequest (serverOfRegs regs)
      { jsonrpc := "2.0", id := rid, method := "tools/list", params := pb }) =
      ((serverOfRegs regs).tools.map Prod.fst).map getToolDefinition := by
    simp [listedTools, handleRequest, List.map_map]
  rw [hlist]
  exact countP_listing_one _ n hnd hmemn hknown

/-- Two registrations of basic_math, with different metadata. -/
def basicMathTwiceRegs : List Registration :=
  [{ name := "basic_math", description := "first registration"
     inputSchema := none, handler := dummyHandler },
   { name := "basic_math", description := "second registration"
     inputSchema := none, handler := dummyHandler }]

/-- Witness for C1: basic_math registered twice is listed exactly
once. -/
theorem c1_list_unique_witness :
    (listedTools (handleRequest (serverOfRegs basicMathTwiceRegs)
        { jsonrpc := "2.0", id := RpcId.num 1, method := "tools/list"
          params := ParamsBytes.malformed "" })).countP
      (fun t => t.name == "basic_math") = 1 :=
  c1_list_unique basicMathTwiceRegs "basic_math" (RpcId.num 1)
    (ParamsBytes.malformed "") (by simp [basicMathTwiceRegs]) (by decide)

end CalcServer
